import Mathlib

/-!
Verification of the DaemonEngine documentation configuration module
(`Docs/source/conf.py`). The module is a flat sequence of top-level
assignments of configuration values; we embed the resulting record as a
Lean structure and the module itself as the list of its assignment
statements, and prove the structural properties claimed of it.
-/

namespace DaemonEngineDocs

/-- A scalar configuration value as it appears inside the theme-option
mapping of the module: a string, a boolean, or an integer. -/
inductive Value where
  | s : String → Value
  | b : Bool → Value
  | i : Int → Value
deriving DecidableEq

/-- Tests whether a scalar configuration value is a string. -/
def Value.isStr : Value → Bool
  | .s _ => true
  | _ => false

/-- Tests whether a scalar configuration value is a boolean. -/
def Value.isBool : Value → Bool
  | .b _ => true
  | _ => false

/-- Tests whether a scalar configuration value is an integer. -/
def Value.isInt : Value → Bool
  | .i _ => true
  | _ => false

/-- The value of one entry of the cross-reference (intersphinx) mapping:
either null or a pair of an optional base URL and an optional inventory
locator.  In `conf.py` the single entry's value is the pair
`('https://docs.python.org/3/', None)`. -/
abbrev InterVal := Option (Option String × Option String)

/-- The configuration record bound by the top-level assignments of
`Docs/source/conf.py`, one field per assigned name, in source order. -/
structure SphinxConfig where
  project : String
  copyright : String
  author : String
  release : String
  extensions : List String
  templates_path : List String
  exclude_patterns : List String
  html_theme : String
  html_static_path : List String
  html_theme_options : List (String × Value)
  html_logo : String
  html_favicon : String
  html_css_files : List String
  html_js_files : List String
  html_title : String
  html_short_title : String
  html_show_sourcelink : Bool
  html_show_sphinx : Bool
  html_show_copyright : Bool
  master_doc : String
  breathe_projects : List (String × String)
  breathe_default_project : String
  todo_include_todos : Bool
  intersphinx_mapping : List (String × InterVal)
deriving DecidableEq

/-- The concrete configuration record defined by `Docs/source/conf.py`,
field for field as assigned in the source. -/
def conf : SphinxConfig where
  project := "DaemonEngine"
  copyright := "2025, Yu-Wei Tseng"
  author := "Yu-Wei Tseng"
  release := "1.0.0"
  extensions :=
    [ "sphinx.ext.autodoc",
      "sphinx.ext.viewcode",
      "sphinx.ext.intersphinx",
      "sphinx.ext.todo",
      "sphinx_rtd_theme",
      "breathe" ]
  templates_path := ["_templates"]
  exclude_patterns := []
  html_theme := "sphinx_rtd_theme"
  html_static_path := ["_static"]
  html_theme_options :=
    [ ("logo_only", .b false),
      ("display_version", .b true),
      ("prev_next_buttons_location", .s "bottom"),
      ("style_external_links", .b false),
      ("style_nav_header_background", .s "#2c3e50"),
      ("collapse_navigation", .b false),
      ("sticky_navigation", .b true),
      ("navigation_depth", .i 4),
      ("includehidden", .b true),
      ("titles_only", .b false) ]
  html_logo := "_static/images/daemon-engine-logo.svg"
  html_favicon := "_static/images/daemon-engine-icon.ico"
  html_css_files := ["css/custom.css"]
  html_js_files := ["js/custom.js"]
  html_title := "DaemonEngine Documentation"
  html_short_title := "DaemonEngine"
  html_show_sourcelink := true
  html_show_sphinx := false
  html_show_copyright := true
  master_doc := "index"
  breathe_projects := [("DaemonEngine", "../doxygen/xml")]
  breathe_default_project := "DaemonEngine"
  todo_include_todos := true
  intersphinx_mapping :=
    [("python", some (some "https://docs.python.org/3/", none))]

/-- Looks up the value bound to a key in an association list, returning
the first binding whose key matches. -/
def lookupKey {α : Type} (k : String) : List (String × α) → Option α
  | [] => none
  | (k', v) :: rest => if k' = k then some v else lookupKey k rest

/-- A serialized top-level configuration value: the right-hand side of
one top-level assignment of the module, tagged by its shape. -/
inductive SVal where
  | s : String → SVal
  | b : Bool → SVal
  | sl : List String → SVal
  | opts : List (String × Value) → SVal
  | proj : List (String × String) → SVal
  | imap : List (String × InterVal) → SVal
deriving DecidableEq

/-- Modelled from the spec: the source contains no serializer (the record
is read from a static file by the external documentation tool), so the
spec's round-trip property is stated over this serializer, which flattens
the record into its list of top-level name/value bindings in source
order. -/
def serialize (c : SphinxConfig) : List (String × SVal) :=
  [ ("project", .s c.project),
    ("copyright", .s c.copyright),
    ("author", .s c.author),
    ("release", .s c.release),
    ("extensions", .sl c.extensions),
    ("templates_path", .sl c.templates_path),
    ("exclude_patterns", .sl c.exclude_patterns),
    ("html_theme", .s c.html_theme),
    ("html_static_path", .sl c.html_static_path),
    ("html_theme_options", .opts c.html_theme_options),
    ("html_logo", .s c.html_logo),
    ("html_favicon", .s c.html_favicon),
    ("html_css_files", .sl c.html_css_files),
    ("html_js_files", .sl c.html_js_files),
    ("html_title", .s c.html_title),
    ("html_short_title", .s c.html_short_title),
    ("html_show_sourcelink", .b c.html_show_sourcelink),
    ("html_show_sphinx", .b c.html_show_sphinx),
    ("html_show_copyright", .b c.html_show_copyright),
    ("master_doc", .s c.master_doc),
    ("breathe_projects", .proj c.breathe_projects),
    ("breathe_default_project", .s c.breathe_default_project),
    ("todo_include_todos", .b c.todo_include_todos),
    ("intersphinx_mapping", .imap c.intersphinx_mapping) ]

/-- Reads the string bound to a key in a serialized record. -/
def getS (l : List (String × SVal)) (k : String) : Option String :=
  match lookupKey k l with
  | some (.s v) => some v
  | _ => none

/-- Reads the boolean bound to a key in a serialized record. -/
def getB (l : List (String × SVal)) (k : String) : Option Bool :=
  match lookupKey k l with
  | some (.b v) => some v
  | _ => none

/-- Reads the string list bound to a key in a serialized record. -/
def getSL (l : List (String × SVal)) (k : String) : Option (List String) :=
  match lookupKey k l with
  | some (.sl v) => some v
  | _ => none

/-- Reads the theme-option mapping bound to a key in a serialized
record. -/
def getOpts (l : List (String × SVal)) (k : String) :
    Option (List (String × Value)) :=
  match lookupKey k l with
  | some (.opts v) => some v
  | _ => none

/-- Reads the native-doc-bridge mapping bound to a key in a serialized
record. -/
def getProj (l : List (String × SVal)) (k : String) :
    Option (List (String × String)) :=
  match lookupKey k l with
  | some (.proj v) => some v
  | _ => none

/-- Reads the cross-reference mapping bound to a key in a serialized
record. -/
def getImap (l : List (String × SVal)) (k : String) :
    Option (List (String × InterVal)) :=
  match lookupKey k l with
  | some (.imap v) => some v
  | _ => none

/-- Modelled from the spec: the source contains no parser either, so
re-parsing reads each top-level binding back by name, failing if any
binding is missing or has the wrong shape. -/
def parse (l : List (String × SVal)) : Option SphinxConfig :=
  match getS l "project", getS l "copyright", getS l "author",
    getS l "release", getSL l "extensions", getSL l "templates_path",
    getSL l "exclude_patterns", getS l "html_theme",
    getSL l "html_static_path", getOpts l "html_theme_options",
    getS l "html_logo", getS l "html_favicon", getSL l "html_css_files",
    getSL l "html_js_files", getS l "html_title",
    getS l "html_short_title", getB l "html_show_sourcelink",
    getB l "html_show_sphinx", getB l "html_show_copyright",
    getS l "master_doc", getProj l "breathe_projects",
    getS l "breathe_default_project", getB l "todo_include_todos",
    getImap l "intersphinx_mapping" with
  | some project, some copyright, some author, some release,
    some extensions, some templates_path, some exclude_patterns,
    some html_theme, some html_static_path, some html_theme_options,
    some html_logo, some html_favicon, some html_css_files,
    some html_js_files, some html_title, some html_short_title,
    some html_show_sourcelink, some html_show_sphinx,
    some html_show_copyright, some master_doc, some breathe_projects,
    some breathe_default_project, some todo_include_todos,
    some intersphinx_mapping =>
      some (SphinxConfig.mk project copyright author release extensions
        templates_path exclude_patterns html_theme html_static_path
        html_theme_options html_logo html_favicon html_css_files
        html_js_files html_title html_short_title html_show_sourcelink
        html_show_sphinx html_show_copyright master_doc breathe_projects
        breathe_default_project todo_include_todos intersphinx_mapping)
  | _, _, _, _, _, _, _, _, _, _, _, _, _, _, _, _, _, _, _, _, _, _, _,
    _ => none

/-- The module `Docs/source/conf.py` as the sequence of its top-level
statements: it consists solely of these straight-line assignments, one
`(name, value)` binding per statement, in source order, with no other
statement kind (no conditional, loop, call, or attribute mutation). -/
def confModule : List (String × SVal) :=
  [ ("project", .s "DaemonEngine"),
    ("copyright", .s "2025, Yu-Wei Tseng"),
    ("author", .s "Yu-Wei Tseng"),
    ("release", .s "1.0.0"),
    ("extensions", .sl
      [ "sphinx.ext.autodoc",
        "sphinx.ext.viewcode",
        "sphinx.ext.intersphinx",
        "sphinx.ext.todo",
        "sphinx_rtd_theme",
        "breathe" ]),
    ("templates_path", .sl ["_templates"]),
    ("exclude_patterns", .sl []),
    ("html_theme", .s "sphinx_rtd_theme"),
    ("html_static_path", .sl ["_static"]),
    ("html_theme_options", .opts
      [ ("logo_only", .b false),
        ("display_version", .b true),
        ("prev_next_buttons_location", .s "bottom"),
        ("style_external_links", .b false),
        ("style_nav_header_background", .s "#2c3e50"),
        ("collapse_navigation", .b false),
        ("sticky_navigation", .b true),
        ("navigation_depth", .i 4),
        ("includehidden", .b true),
        ("titles_only", .b false) ]),
    ("html_logo", .s "_static/images/daemon-engine-logo.svg"),
    ("html_favicon", .s "_static/images/daemon-engine-icon.ico"),
    ("html_css_files", .sl ["css/custom.css"]),
    ("html_js_files", .sl ["js/custom.js"]),
    ("html_title", .s "DaemonEngine Documentation"),
    ("html_short_title", .s "DaemonEngine"),
    ("html_show_sourcelink", .b true),
    ("html_show_sphinx", .b false),
    ("html_show_copyright", .b true),
    ("master_doc", .s "index"),
    ("breathe_projects", .proj [("DaemonEngine", "../doxygen/xml")]),
    ("breathe_default_project", .s "DaemonEngine"),
    ("todo_include_todos", .b true),
    ("intersphinx_mapping", .imap
      [("python", some (some "https://docs.python.org/3/", none))]) ]

/-- The static-asset path strings declared by the record: the entries of
`templates_path`, `html_static_path`, `html_css_files` and
`html_js_files`, together with `html_logo` and `html_favicon`. -/
def staticAssetPaths (c : SphinxConfig) : List String :=
  c.templates_path ++ c.html_static_path ++ c.html_css_files ++
    c.html_js_files ++ [c.html_logo, c.html_favicon]

/-- C1, counterexample: the extensions list of the record is not the
spec scenario's list `["autodoc", "viewcode", "breathe"]`; the source
binds six fully-qualified identifiers instead. -/
theorem c1_counterexample :
    conf.extensions ≠ ["autodoc", "viewcode", "breathe"] := by
  decide

/-- C1, amended: the record exposes the four top-level values of the
source unchanged: project `"DaemonEngine"`, the six-element extensions
list of the source (which contains the fully-qualified autodoc and
viewcode identifiers and `"breathe"`), theme `"sphinx_rtd_theme"`, and
the native-doc-bridge mapping `DaemonEngine to ../doxygen/xml` with
default project `"DaemonEngine"`. -/
theorem c1_amended_values :
    conf.project = "DaemonEngine" ∧
    conf.extensions =
      [ "sphinx.ext.autodoc",
        "sphinx.ext.viewcode",
        "sphinx.ext.intersphinx",
        "sphinx.ext.todo",
        "sphinx_rtd_theme",
        "breathe" ] ∧
    conf.html_theme = "sphinx_rtd_theme" ∧
    conf.breathe_projects = [("DaemonEngine", "../doxygen/xml")] ∧
    conf.breathe_default_project = "DaemonEngine" :=
  ⟨rfl, rfl, rfl, rfl, rfl⟩

/-- C2: serializing the configuration record defined by the module and
re-parsing the result yields the identical record, field for field. -/
theorem c2_roundtrip : parse (serialize conf) = some conf := by
  rfl

/-- C3: the extensions list of the record contains no duplicate
identifiers: entries at distinct positions are distinct strings. -/
theorem c3_extensions_nodup :
    ∀ i j : Fin conf.extensions.length,
      i ≠ j → conf.extensions.get i ≠ conf.extensions.get j := by
  decide

/-- C3, witness: positions 0 and 1 of the extensions list are distinct
and carry distinct identifiers. -/
theorem c3_extensions_nodup_witness :
    conf.extensions.get ⟨0, by decide⟩ ≠ conf.extensions.get ⟨1, by decide⟩ :=
  c3_extensions_nodup ⟨0, by decide⟩ ⟨1, by decide⟩ (by decide)

/-- C4: in the theme-option mapping of the record, the navigation-depth
value is an integer, the collapse-navigation, sticky-navigation,
show-version (`display_version`) and titles-only values are booleans,
and the header-background-color value is a string. -/
theorem c4_theme_option_types :
    (lookupKey "navigation_depth" conf.html_theme_options).any Value.isInt
      = true ∧
    (lookupKey "collapse_navigation" conf.html_theme_options).any Value.isBool
      = true ∧
    (lookupKey "sticky_navigation" conf.html_theme_options).any Value.isBool
      = true ∧
    (lookupKey "display_version" conf.html_theme_options).any Value.isBool
      = true ∧
    (lookupKey "style_nav_header_background" conf.html_theme_options).any
      Value.isStr = true ∧
    (lookupKey "titles_only" conf.html_theme_options).any Value.isBool
      = true := by
  decide

/-- C5: every entry of the cross-reference mapping of the record has a
non-empty key, and its value is null or a pair of an optional URL and an
optional inventory locator. -/
theorem c5_intersphinx_entries :
    ∀ e ∈ conf.intersphinx_mapping,
      e.1 ≠ "" ∧ (e.2 = none ∨ ∃ u l, e.2 = some (u, l)) := by
  intro e he
  have he2 : e ∈
      [("python",
        (some (some "https://docs.python.org/3/", none) : InterVal))] := he
  obtain rfl := List.mem_singleton.mp he2
  exact ⟨by decide,
    Or.inr ⟨some "https://docs.python.org/3/", none, rfl⟩⟩

/-- C5, witness: the single entry of the cross-reference mapping, the
`python` entry, satisfies the property. -/
theorem c5_intersphinx_entries_witness :
    ("python",
      (some (some "https://docs.python.org/3/", none) : InterVal)).1 ≠ "" ∧
    (("python",
      (some (some "https://docs.python.org/3/", none) : InterVal)).2 = none ∨
      ∃ u l, ("python",
        (some (some "https://docs.python.org/3/", none) : InterVal)).2
          = some (u, l)) :=
  c5_intersphinx_entries
    ("python", some (some "https://docs.python.org/3/", none)) (by decide)

/-- C6: every path string declared in the static-asset path fields of
the record is non-empty. -/
theorem c6_asset_paths_nonempty :
    ∀ p ∈ staticAssetPaths conf, p ≠ "" := by
  decide

/-- C6, witness: the entry of `templates_path` is a member of the
declared static-asset paths and is non-empty. -/
theorem c6_asset_paths_nonempty_witness : ("_templates" : String) ≠ "" :=
  c6_asset_paths_nonempty "_templates" (by decide)

/-- C7: every top-level configuration name of the module is bound exactly
once: the module is a straight line of assignments and the names they
bind are pairwise distinct, so no later statement rebinds any field. -/
theorem c7_bound_once : (confModule.map Prod.fst).Nodup := by
  decide

/-- C8: the default project of the native-comment bridge is a key of the
bridge mapping. -/
theorem c8_default_project_consistent :
    conf.breathe_default_project ∈ conf.breathe_projects.map Prod.fst := by
  decide

/-- C9: the string bound to `html_theme` also occurs as an element of
the extensions list. -/
theorem c9_theme_in_extensions : conf.html_theme ∈ conf.extensions := by
  decide

/-- C10: the exclusion set of the record is the empty list. -/
theorem c10_exclude_patterns_empty : conf.exclude_patterns = [] :=
  rfl

end DaemonEngineDocs
